import Mathlib

/-!
Verification of the client-side dashboard logic of the share-file repository
(`src/static/js/admin.js` and `src/static/js/main.js`).

The jQuery glue code is shallowly embedded: DOM mutations become explicit
state transformers, AJAX calls and notifications become elements of an
`Effect` list emitted in program order, and the asynchronous outcome of a
request that the handler branches on (upload result, API envelope) is passed
in as an explicit argument.
-/

/-- The five admin dashboard sections enumerated by `admin.js`
(`titles` table and the `switch` in `showSection`, lines 54-81). -/
inductive Section
  | dashboard
  | visitors
  | banners
  | downloads
  | settings
deriving DecidableEq, Repr

/-- The five per-section data loader functions of `admin.js`. -/
inductive Loader
  | loadDashboardData
  | loadVisitors
  | loadBanners
  | loadDownloads
  | loadSettings
deriving DecidableEq, Repr

/-- The JSON payload sent by `saveBanner` (`admin.js` lines 370-398, 423-430):
the object literal built in the submit handler, with `id` present only in
edit mode and `image_path` present only after a successful upload. -/
structure BannerPayload where
  id : Option String
  title : String
  description : String
  link_url : String
  position : String
  status : Bool
  image_path : Option String
deriving DecidableEq, Repr

/-- Observable side effects emitted by the embedded handlers, in program
order: network requests (with method, URL and, for JSON posts, the body
fields), user-facing notifications (`showAlert`), console logging, and the
loading overlay toggles of `main.js`. -/
inductive Effect
  | request (method : String) (url : String) (body : List (String × String))
  | saveBannerRequest (method : String) (payload : BannerPayload)
  | uploadRequest (file : String)
  | settingsRequest (settings : List (String × String))
  | alert (message : String) (ty : String)
  | consoleError (message : String)
  | showLoading
  | hideLoading
deriving DecidableEq, Repr

/-- An effect that puts bytes on the network. -/
def isNetworkRequest : Effect → Bool
  | Effect.request _ _ _ => true
  | Effect.saveBannerRequest _ _ => true
  | Effect.uploadRequest _ => true
  | Effect.settingsRequest _ => true
  | _ => false

/-- A user-facing notification of any category. -/
def isAlertEffect : Effect → Bool
  | Effect.alert _ _ => true
  | _ => false

/-- A user-facing notification of category `error`. -/
def isErrorAlert : Effect → Bool
  | Effect.alert _ ty => decide (ty = "error")
  | _ => false

/-- Does one character list start with another?  (The `^literal` part of a
regex match, written over `List Char` so that proofs can evaluate it.) -/
def charsStartWith : List Char → List Char → Bool
  | _, [] => true
  | [], _ :: _ => false
  | c :: cs, p :: ps => decide (c = p) && charsStartWith cs ps

/-- The WhiteSpace and LineTerminator code points removed by JavaScript's
`String.prototype.trim`. -/
def isJsWhitespace (c : Char) : Bool :=
  c.toNat = 0x9 || c.toNat = 0xA || c.toNat = 0xB || c.toNat = 0xC ||
  c.toNat = 0xD || c.toNat = 0x20 || c.toNat = 0xA0 || c.toNat = 0x1680 ||
  (0x2000 ≤ c.toNat && c.toNat ≤ 0x200A) ||
  c.toNat = 0x2028 || c.toNat = 0x2029 || c.toNat = 0x202F ||
  c.toNat = 0x205F || c.toNat = 0x3000 || c.toNat = 0xFEFF

/-- JavaScript `.trim()`: strip leading and trailing whitespace. -/
def jsTrim (s : String) : String :=
  String.mk (((s.data.dropWhile isJsWhitespace).reverse.dropWhile isJsWhitespace).reverse)

/-- The string identifier used for each section in the DOM
(`data-section` values / element id stems such as `dashboard-section`). -/
def sectionId : Section → String
  | Section.dashboard => "dashboard"
  | Section.visitors => "visitors"
  | Section.banners => "banners"
  | Section.downloads => "downloads"
  | Section.settings => "settings"

/-- The static `titles` lookup table of `showSection`
(`admin.js` lines 54-60), as a partial map on raw section strings. -/
def titlesTable (s : String) : Option String :=
  if s = "dashboard" then some "Dashboard"
  else if s = "visitors" then some "Quản lý Visitors"
  else if s = "banners" then some "Quản lý Banners"
  else if s = "downloads" then some "Thống kê Downloads"
  else if s = "settings" then some "Cài đặt hệ thống"
  else none

/-- The per-section title the lookup table assigns to each enumerated
section. -/
def sectionTitle : Section → String
  | Section.dashboard => "Dashboard"
  | Section.visitors => "Quản lý Visitors"
  | Section.banners => "Quản lý Banners"
  | Section.downloads => "Thống kê Downloads"
  | Section.settings => "Cài đặt hệ thống"

/-- The `switch` statement at the end of `showSection`
(`admin.js` lines 65-81): which loader a raw section string triggers. -/
def switchLoader (s : String) : Option Loader :=
  if s = "dashboard" then some Loader.loadDashboardData
  else if s = "visitors" then some Loader.loadVisitors
  else if s = "banners" then some Loader.loadBanners
  else if s = "downloads" then some Loader.loadDownloads
  else if s = "settings" then some Loader.loadSettings
  else none

/-- The loader belonging to each enumerated section (the correspondence
realised by the `switch` in `showSection`). -/
def sectionLoader : Section → Loader
  | Section.dashboard => Loader.loadDashboardData
  | Section.visitors => Loader.loadVisitors
  | Section.banners => Loader.loadBanners
  | Section.downloads => Loader.loadDownloads
  | Section.settings => Loader.loadSettings

/-- The 30-second auto-refresh interval callback (`admin.js` lines 18-24):
`if (currentSection === 'dashboard') loadDashboardData();
else if (currentSection === 'visitors') loadVisitors();`.
Returns the loader the tick invokes, if any. -/
def refreshTick (currentSection : String) : Option Loader :=
  if currentSection = "dashboard" then some Loader.loadDashboardData
  else if currentSection = "visitors" then some Loader.loadVisitors
  else none

/-- Navigation state of the admin page: the `currentSection` variable, the
`active` class on each of the five content regions, and the `#page-title`
text.  The five content regions themselves are modelled from the spec:
the admin HTML template that declares the `#<section>-section` elements is
not part of `src/`, and the spec fixes them to the enumerated set. -/
structure NavState where
  currentSection : String
  sectionActive : Section → Bool
  pageTitle : String

/-- `showSection` (`admin.js` lines 44-82): records the current section,
removes the `active` class from every `.content-section`, adds it to
`#<section>-section`, sets the page title from `titlesTable` with fallback
`"Dashboard"`, and triggers the section's loader via the `switch`. -/
def showSection (s : String) (_st : NavState) : NavState × Option Loader :=
  ({ currentSection := s,
     sectionActive := fun sec => decide (sectionId sec ++ "-section" = s ++ "-section"),
     pageTitle := (titlesTable s).getD "Dashboard" },
   switchLoader s)

/-- The banner form fields read by the submit handlers of `admin.js`:
`#banner-id`, `#banner-title`, `#banner-description`, `#banner-link`,
`#banner-position`, `#banner-status` and the attached `#banner-image`
file (if any). -/
structure BannerFormState where
  id : String
  title : String
  description : String
  link_url : String
  position : String
  statusChecked : Bool
  imageFile : Option String
deriving DecidableEq, Repr

/-- Outcome of the asynchronous `/admin/upload` request that
`uploadBannerImage` branches on (`admin.js` lines 400-421): a success
envelope carrying `image_path`, an application failure (`success=false`
with an `error` message), or a transport error. -/
inductive UploadOutcome
  | ok (path : String)
  | appError (msg : String)
  | netError (msg : String)
deriving DecidableEq, Repr

/-- `saveBanner` (`admin.js` lines 423-430): one JSON request to
`/admin/api/banners`, method `PUT` in edit mode and `POST` otherwise. -/
def saveBanner (d : BannerPayload) (isEdit : Bool) : List Effect :=
  [Effect.saveBannerRequest (if isEdit then "PUT" else "POST") d]

/-- The first `#banner-form` submit handler (`admin.js` lines 370-398):
builds the payload, sets `id` when `#banner-id` is non-empty, and either
uploads the attached image first — calling `saveBanner` with the returned
path only from the upload success callback — or calls `saveBanner`
directly. -/
def bannerSubmitHandlerOne (f : BannerFormState) (u : UploadOutcome) : List Effect :=
  let isEdit := decide (f.id ≠ "")
  let fd : BannerPayload :=
    { id := if isEdit then some f.id else none,
      title := f.title,
      description := f.description,
      link_url := f.link_url,
      position := f.position,
      status := f.statusChecked,
      image_path := none }
  match f.imageFile with
  | some file =>
      Effect.uploadRequest file ::
        (match u with
         | UploadOutcome.ok path => saveBanner { fd with image_path := some path } isEdit
         | UploadOutcome.appError msg => [Effect.alert msg "error"]
         | UploadOutcome.netError msg => [Effect.alert ("Lỗi upload ảnh: " ++ msg) "error"])
  | none => saveBanner fd isEdit

/-- `validateBannerForm` (`admin.js` lines 804-819): trimmed title must be
non-empty, then position must be non-empty; returns the verdict together
with the error notification it shows. -/
def validateBannerForm (title position : String) : Bool × List Effect :=
  if jsTrim title = "" then
    (false, [Effect.alert "Vui lòng nhập tiêu đề banner" "error"])
  else if position = "" then
    (false, [Effect.alert "Vui lòng chọn vị trí banner" "error"])
  else
    (true, [])

/-- One full `submit` event on `#banner-form`: jQuery runs the two bound
handlers in registration order, so the AJAX handler (lines 370-398) runs
first and the validation handler (lines 822-827) runs second; the effects
are concatenated in that order. -/
def bannerFormSubmit (f : BannerFormState) (u : UploadOutcome) : List Effect :=
  bannerSubmitHandlerOne f u ++ (validateBannerForm f.title f.position).2

/-- Outcome of an AJAX read that a loader branches on: the parsed JSON
envelope on HTTP success, or a transport/HTTP error string delivered to the
`error:` callback. -/
inductive ApiResult (α : Type)
  | ok (response : α)
  | netError (err : String)
deriving DecidableEq, Repr

/-- `stats.visitors` of the `/admin/api/stats` envelope. -/
structure VisitorsStats where
  active_now : Nat
  today_unique : Nat
deriving DecidableEq, Repr

/-- One entry of `stats.downloads.popular_videos`. -/
structure PopularVideo where
  title : String
  downloads : Nat
deriving DecidableEq, Repr

/-- `stats.downloads` of the `/admin/api/stats` envelope. -/
structure DownloadsStats where
  total_downloads : Nat
  popular_videos : List PopularVideo
deriving DecidableEq, Repr

/-- `stats.banners` of the `/admin/api/stats` envelope. -/
structure BannersStats where
  total_clicks : Nat
deriving DecidableEq, Repr

/-- The `stats` payload of `/admin/api/stats`. -/
structure Stats where
  visitors : VisitorsStats
  downloads : DownloadsStats
  banners : BannersStats
deriving DecidableEq, Repr

/-- Envelope of `/admin/api/stats`. -/
structure StatsResponse where
  success : Bool
  stats : Stats
deriving DecidableEq, Repr

/-- One visitor record of `/admin/api/visitors`. -/
structure Visitor where
  session_id : String
  ip_address : String
  user_agent : String
  first_visit : String
  last_activity : String
  page_views : Nat
  is_active : Bool
deriving DecidableEq, Repr

/-- Envelope of `/admin/api/visitors`. -/
structure VisitorsResponse where
  success : Bool
  visitors : List Visitor
deriving DecidableEq, Repr

/-- One banner record of `/admin/api/banners`. -/
structure Banner where
  id : Nat
  title : String
  description : String
  link_url : String
  position : String
  status : Bool
  image_path : String
  clicks : Nat
  created_at : String
deriving DecidableEq, Repr

/-- Envelope of `/admin/api/banners` (GET). -/
structure BannersResponse where
  success : Bool
  banners : List Banner
deriving DecidableEq, Repr

/-- One record of `recent_downloads` in `/admin/api/downloads`. -/
structure DownloadRecord where
  video_title : String
  format_type : String
  download_count : Nat
  last_download : String
  video_url : String
deriving DecidableEq, Repr

/-- Envelope of `/admin/api/downloads` (the part `loadDownloads` reads). -/
structure DownloadsResponse where
  success : Bool
  recent_downloads : List DownloadRecord
deriving DecidableEq, Repr

/-- One setting record of `/admin/api/settings`. -/
structure Setting where
  key : String
  description : String
  value : String
deriving DecidableEq, Repr

/-- Envelope of `/admin/api/settings` (GET). -/
structure SettingsResponse where
  success : Bool
  settings : List Setting
deriving DecidableEq, Repr

/-- Content of the `#popular-videos` container after
`updatePopularVideos`: the placeholder paragraph for an empty list, or the
rendered (title, download count) items. -/
inductive PopularVideosContent
  | placeholder
  | items (l : List (String × Nat))
deriving DecidableEq, Repr

/-- `formatDateTime` (`admin.js` lines 543-554).  The guard for a falsy
date string is modelled exactly; the `Date`/`toLocaleString('vi-VN', ...)`
conversion is kept abstract as the identity on the date string (no claim
depends on locale rendering). -/
def formatDateTime (dateString : String) : String :=
  if dateString = "" then "N/A" else dateString

/-- The rendered DOM containers that the five loaders mutate. -/
structure AdminDom where
  activeVisitorsText : String
  todayVisitorsText : String
  totalDownloadsText : String
  bannerClicksText : String
  popularVideos : PopularVideosContent
  visitorsRows : List (List String)
  bannersCards : List Banner
  downloadsRows : List (List String)
  settingsInputs : List (String × String)
deriving DecidableEq, Repr

/-- A wholly empty rendering of the admin containers, used as a concrete
prior DOM state. -/
def emptyAdminDom : AdminDom :=
  { activeVisitorsText := ""
    todayVisitorsText := ""
    totalDownloadsText := ""
    bannerClicksText := ""
    popularVideos := PopularVideosContent.items []
    visitorsRows := []
    bannersCards := []
    downloadsRows := []
    settingsInputs := [] }

/-- `updateDashboardStats` (`admin.js` lines 101-109): writes the four
stat-card texts. -/
def updateDashboardStats (stats : Stats) (dom : AdminDom) : AdminDom :=
  { dom with
    activeVisitorsText := toString stats.visitors.active_now,
    todayVisitorsText := toString stats.visitors.today_unique,
    totalDownloadsText := toString stats.downloads.total_downloads,
    bannerClicksText := toString stats.banners.total_clicks }

/-- `updatePopularVideos` (`admin.js` lines 111-129): empties the
container, shows the placeholder for an empty list, otherwise renders one
(title, count) item per video. -/
def updatePopularVideos (videos : List PopularVideo) (dom : AdminDom) : AdminDom :=
  if videos = [] then
    { dom with popularVideos := PopularVideosContent.placeholder }
  else
    { dom with popularVideos :=
        PopularVideosContent.items (videos.map (fun v => (v.title, v.downloads))) }

/-- The status badge text used by `updateVisitorsTable`. -/
def visitorStatusBadge (isActive : Bool) : String :=
  if isActive then "Online" else "Offline"

/-- `updateVisitorsTable` (`admin.js` lines 187-209): empties the tbody and
renders one row of cell texts per visitor. -/
def updateVisitorsTable (visitors : List Visitor) (dom : AdminDom) : AdminDom :=
  { dom with visitorsRows := visitors.map (fun v =>
      [v.session_id, v.ip_address, v.user_agent,
       formatDateTime v.first_visit, formatDateTime v.last_activity,
       toString v.page_views, visitorStatusBadge v.is_active]) }

/-- `updateBannersGrid` (`admin.js` lines 226-257): empties the grid and
renders one card per banner (the card is modelled by the banner record it
displays). -/
def updateBannersGrid (banners : List Banner) (dom : AdminDom) : AdminDom :=
  { dom with bannersCards := banners }

/-- `updateDownloadsTable` (`admin.js` lines 274-290): empties the tbody
and renders one row of cell texts per download record. -/
def updateDownloadsTable (downloads : List DownloadRecord) (dom : AdminDom) : AdminDom :=
  { dom with downloadsRows := downloads.map (fun d =>
      [d.video_title, d.format_type.toUpper, toString d.download_count,
       formatDateTime d.last_download, d.video_url]) }

/-- `updateSettingsForm` (`admin.js` lines 307-320): empties the form and
renders one text input (name, value) per setting. -/
def updateSettingsForm (settings : List Setting) (dom : AdminDom) : AdminDom :=
  { dom with settingsInputs := settings.map (fun s => (s.key, s.value)) }

/-- `loadDashboardData` (`admin.js` lines 84-99): on a `success=true`
envelope renders the stats and popular videos and calls `loadFormatChart`
(which issues `GET /admin/api/downloads`); on `success=false` does
nothing; on a transport error logs to the console only. -/
def loadDashboardData (res : ApiResult StatsResponse) (dom : AdminDom) : AdminDom × List Effect :=
  match res with
  | ApiResult.ok r =>
      if r.success then
        (updatePopularVideos r.stats.downloads.popular_videos (updateDashboardStats r.stats dom),
         [Effect.request "GET" "/admin/api/downloads" []])
      else (dom, [])
  | ApiResult.netError e =>
      (dom, [Effect.consoleError ("Failed to load dashboard data: " ++ e)])

/-- `loadVisitors` (`admin.js` lines 172-185). -/
def loadVisitors (res : ApiResult VisitorsResponse) (dom : AdminDom) : AdminDom × List Effect :=
  match res with
  | ApiResult.ok r =>
      if r.success then (updateVisitorsTable r.visitors dom, []) else (dom, [])
  | ApiResult.netError e =>
      (dom, [Effect.consoleError ("Failed to load visitors: " ++ e)])

/-- `loadBanners` (`admin.js` lines 211-224). -/
def loadBanners (res : ApiResult BannersResponse) (dom : AdminDom) : AdminDom × List Effect :=
  match res with
  | ApiResult.ok r =>
      if r.success then (updateBannersGrid r.banners dom, []) else (dom, [])
  | ApiResult.netError e =>
      (dom, [Effect.consoleError ("Failed to load banners: " ++ e)])

/-- `loadDownloads` (`admin.js` lines 259-272). -/
def loadDownloads (res : ApiResult DownloadsResponse) (dom : AdminDom) : AdminDom × List Effect :=
  match res with
  | ApiResult.ok r =>
      if r.success then (updateDownloadsTable r.recent_downloads dom, []) else (dom, [])
  | ApiResult.netError e =>
      (dom, [Effect.consoleError ("Failed to load downloads: " ++ e)])

/-- `loadSettings` (`admin.js` lines 292-305). -/
def loadSettings (res : ApiResult SettingsResponse) (dom : AdminDom) : AdminDom × List Effect :=
  match res with
  | ApiResult.ok r =>
      if r.success then (updateSettingsForm r.settings dom, []) else (dom, [])
  | ApiResult.netError e =>
      (dom, [Effect.consoleError ("Failed to load settings: " ++ e)])

/-- A character the `.` of the JavaScript regex refuses to match
(line terminators: LF, CR, LS, PS). -/
def isLineTerminator (c : Char) : Bool :=
  c = Char.ofNat 10 || c = Char.ofNat 13 || c = Char.ofNat 8232 || c = Char.ofNat 8233

/-- `isValidYouTubeUrl` (`main.js` lines 67-70): the regex
`^(https?:\/\/)?(www\.)?(youtube\.com|youtu\.be)\/.+$` unfolded.  Each
optional group is committed greedily; this is equivalent to the
backtracking semantics because no string both starts with an optional
group's literal and matches with that group skipped.  The trailing `.+$`
demands at least one character and no line terminator. -/
def isValidYouTubeUrl (url : String) : Bool :=
  let cs := url.data
  let afterScheme :=
    if charsStartWith cs "http://".data then cs.drop 7
    else if charsStartWith cs "https://".data then cs.drop 8
    else cs
  let afterWww :=
    if charsStartWith afterScheme "www.".data then afterScheme.drop 4 else afterScheme
  let rest :=
    if charsStartWith afterWww "youtube.com/".data then some (afterWww.drop 12)
    else if charsStartWith afterWww "youtu.be/".data then some (afterWww.drop 9)
    else none
  match rest with
  | some r => !r.isEmpty && r.all (fun c => !isLineTerminator c)
  | none => false

/-- The `#get-info-btn` click handler (`main.js` lines 5-19) followed by
`getVideoInfo` (lines 72-97) up to the point the request is issued. -/
def getInfoClick (raw : String) : List Effect :=
  let url := jsTrim raw
  if url = "" then
    [Effect.alert "Vui lòng nhập URL YouTube" "error"]
  else if !isValidYouTubeUrl url then
    [Effect.alert "URL không hợp lệ. Vui lòng nhập URL YouTube" "error"]
  else
    [Effect.showLoading, Effect.request "POST" "/get-video-info" [("url", url)]]

/-- The `.btn-download` click handler (`main.js` lines 29-40) followed by
`downloadSubtitle` (lines 126-135) up to the point the request is issued:
only `currentVideoInfo` is checked, never the URL. -/
def downloadClick (hasVideoInfo : Bool) (raw fmt lang : String) : List Effect :=
  let url := jsTrim raw
  if !hasVideoInfo then
    [Effect.alert "Vui lòng lấy thông tin video trước" "error"]
  else
    [Effect.showLoading,
     Effect.request "POST" "/download-subtitle"
       [("url", url), ("format", fmt), ("language", lang)]]

/-- The `#preview-btn` click handler (`main.js` lines 43-53) followed by
`previewSubtitle` (lines 183-195) up to the point the request is issued. -/
def previewClick (hasVideoInfo : Bool) (raw lang : String) : List Effect :=
  let url := jsTrim raw
  if !hasVideoInfo then
    [Effect.alert "Vui lòng lấy thông tin video trước" "error"]
  else
    [Effect.showLoading,
     Effect.request "POST" "/preview-subtitle" [("url", url), ("language", lang)]]

/-- An element of the rendered page, reduced to its class list and text. -/
structure PageElem where
  classes : List String
  text : String
deriving DecidableEq, Repr

/-- Does the element carry the given CSS class? -/
def hasClass (e : PageElem) (cls : String) : Bool :=
  e.classes.any (fun c => decide (c = cls))

/-- `$('.alert').remove()`: drop every element carrying the `alert`
class. -/
def removeExistingAlerts (doc : List PageElem) : List PageElem :=
  doc.filter (fun e => !hasClass e "alert")

/-- The alert CSS class chain of `showAlert` in `admin.js`
(lines 560-562). -/
def alertClassAdmin (ty : String) : String :=
  if ty = "error" then "alert-error"
  else if ty = "success" then "alert-success"
  else if ty = "info" then "alert-info"
  else "alert-info"

/-- The alert CSS class chain of `showAlert` in `main.js`
(lines 224-225). -/
def alertClassMain (ty : String) : String :=
  if ty = "error" then "alert-error"
  else if ty = "success" then "alert-success"
  else "alert-info"

/-- `showAlert` of `admin.js` (lines 556-583): removes every existing
alert, appends the new alert element to the body, and schedules its
removal after 5000 ms (the returned delay). -/
def showAlertAdmin (doc : List PageElem) (message ty : String) : List PageElem × Nat :=
  (removeExistingAlerts doc ++
     [{ classes := ["alert", alertClassAdmin ty, "fade-in"], text := message }],
   5000)

/-- `showAlert` of `main.js` (lines 221-244): removes every existing
alert, prepends the new alert element to the download form, and schedules
its removal after 5000 ms (the returned delay). -/
def showAlertMain (doc : List PageElem) (message ty : String) : List PageElem × Nat :=
  ({ classes := ["alert", alertClassMain ty, "fade-in"], text := message } ::
     removeExistingAlerts doc,
   5000)

/-- Outcome of one probe of the 5-minute session-check timer
(`admin.js` lines 769-784): the stats request succeeded, or failed with
the given HTTP status (`0` for a transport error). -/
inductive ProbeResult
  | success
  | failure (status : Nat)
deriving DecidableEq, Repr

/-- One firing of the session-check callback: given the
`sessionWarningShown` flag and the probe outcome, returns the new flag
and whether the warning notification was raised this firing.
`success` resets the flag; a 401 with the flag clear sets it and warns;
every other failure changes nothing. -/
def sessionStep (warned : Bool) : ProbeResult → Bool × Bool
  | ProbeResult.success => (false, false)
  | ProbeResult.failure status =>
      if decide (status = 401) && !warned then (true, true) else (warned, false)

/-- The `sessionWarningShown` flag after a run of probe outcomes. -/
def flagAfter (warned : Bool) (rs : List ProbeResult) : Bool :=
  rs.foldl (fun w r => (sessionStep w r).1) warned

/-- Whether each successive firing raised the warning, starting from the
given flag (`let sessionWarningShown = false` at page load). -/
def sessionWarnings (warned : Bool) : List ProbeResult → List Bool
  | [] => []
  | r :: rs => (sessionStep warned r).2 :: sessionWarnings (sessionStep warned r).1 rs

/-- One `input` event on a `#settings-form` field: when it happened and
the full (name, value) snapshot of the form's inputs at that moment. -/
structure InputEvent where
  time : Nat
  fields : List (String × String)
deriving DecidableEq, Repr

/-- The debounce delay of the settings auto-save
(`admin.js` lines 726-732): `setTimeout(..., 2000)`. -/
def autoSaveDelayMs : Nat := 2000

/-- The auto-save debounce (`admin.js` lines 724-732): every input clears
the pending timeout and schedules a new one 2000 ms out; a scheduled save
fires only if the next input does not arrive before the deadline.  Given
the time-ordered input events, returns the (fire time, form snapshot) of
every save that actually fires. -/
def debounceRun : List InputEvent → List (Nat × List (String × String))
  | [] => []
  | e :: es =>
    match es with
    | [] => [(e.time + autoSaveDelayMs, e.fields)]
    | e2 :: _ =>
        if e.time + autoSaveDelayMs ≤ e2.time then
          (e.time + autoSaveDelayMs, e.fields) :: debounceRun es
        else
          debounceRun es

/-- JavaScript object assignment `settings[name] = value`: overwrite the
value if the key exists, otherwise add the key at the end. -/
def setKey : List (String × String) → String → String → List (String × String)
  | [], k, v => [(k, v)]
  | (k0, v0) :: rest, k, v =>
      if k0 = k then (k0, v) :: rest else (k0, v0) :: setKey rest k v

/-- The `settings` object built by `saveSettings`
(`admin.js` lines 481-489) from iterating over `#settings-form input`. -/
def settingsObject (inputs : List (String × String)) : List (String × String) :=
  inputs.foldl (fun acc kv => setKey acc kv.1 kv.2) []

/-- `saveSettings` (`admin.js` lines 481-506) up to the point the request
is issued: one `POST /admin/api/settings` carrying the collected
settings object. -/
def saveSettingsEffects (inputs : List (String × String)) : List Effect :=
  [Effect.settingsRequest (settingsObject inputs)]

/-- The debounced auto-save callback body (`admin.js` lines 728-731):
shows the info notification, then calls `saveSettings` on the current
form snapshot. -/
def autoSaveFire (inputs : List (String × String)) : List Effect :=
  Effect.alert "Tự động lưu cài đặt..." "info" :: saveSettingsEffects inputs

/-- One body row of a rendered table, with the jQuery `:visible` verdict
(search filtering hides non-matching rows). -/
structure TableRow where
  cells : List String
  visible : Bool
deriving DecidableEq, Repr

/-- A rendered table: header-cell texts and body rows. -/
structure HtmlTable where
  headers : List String
  rows : List TableRow
deriving DecidableEq, Repr

/-- The cell serialization of `getTableData`
(`admin.js` line 639): `.replace(/,/g, ';')`. -/
def replaceCommas (s : String) : String :=
  String.mk (s.data.map (fun c => if c = ',' then ';' else c))

/-- `getTableData` (`admin.js` lines 625-645): the header texts as the
first row (taken verbatim), then one row per `tbody tr:visible` with each
cell's text comma-escaped. -/
def getTableData (t : HtmlTable) : List (List String) :=
  t.headers :: (t.rows.filter (fun r => r.visible)).map (fun r => r.cells.map replaceCommas)

/-- The CSV text built by `downloadCSV` (`admin.js` line 648):
rows joined by `,`, lines joined by `\n`. -/
def csvContent (data : List (List String)) : String :=
  String.intercalate "\n" (data.map (fun row => String.intercalate "," row))

/-! ## Shared helper lemmas -/

/-- No character of a comma-escaped cell is a comma. -/
theorem comma_not_mem_replaceCommas (s : String) : ',' ∉ (replaceCommas s).data := by
  intro h
  have h2 : ',' ∈ s.data.map (fun c => if c = ',' then ';' else c) := h
  rcases List.mem_map.mp h2 with ⟨c, _, hc⟩
  by_cases hcc : c = ','
  · rw [if_pos hcc] at hc
    exact absurd hc (by decide)
  · rw [if_neg hcc] at hc
    exact hcc hc

/-! ## C1: the 30-second refresh timer -/

/-- C1 (counterexample): with `banners` as the currently active section, a
firing of the 30-second timer does not invoke that section's loader — the
interval callback only handles `dashboard` and `visitors`. -/
theorem refreshTick_banners_not_reloaded :
    ¬ refreshTick (sectionId Section.banners) = some (sectionLoader Section.banners) := by
  decide

/-- C1 (amended): each firing of the 30-second timer invokes
`loadDashboardData` when the active section is `dashboard` and
`loadVisitors` when it is `visitors`; for `banners`, `downloads` and
`settings` it invokes no loader at all. -/
theorem refreshTick_only_dashboard_and_visitors :
    refreshTick (sectionId Section.dashboard) = some (sectionLoader Section.dashboard) ∧
    refreshTick (sectionId Section.visitors) = some (sectionLoader Section.visitors) ∧
    refreshTick (sectionId Section.banners) = none ∧
    refreshTick (sectionId Section.downloads) = none ∧
    refreshTick (sectionId Section.settings) = none := by
  decide

/-! ## C2: client-side validation of the banner form -/

/-- C2 (code bug evidence): submitting the banner form with an empty title
is not rejected before the network call.  The AJAX submit handler is bound
before the validation handler, so the save request is issued first (it is
the first emitted effect) and only afterwards does validation show the
error notification. -/
theorem bannerSubmit_missing_title_still_sends_request :
    (bannerFormSubmit ⟨"", "", "d", "", "top", true, none⟩ (UploadOutcome.ok "p")).any
        isNetworkRequest = true ∧
    (bannerFormSubmit ⟨"", "", "d", "", "top", true, none⟩ (UploadOutcome.ok "p")).any
        isErrorAlert = true ∧
    (bannerFormSubmit ⟨"", "", "d", "", "top", true, none⟩ (UploadOutcome.ok "p")).head? =
      some (Effect.saveBannerRequest "POST" ⟨none, "", "d", "", "top", true, none⟩) := by
  decide

/-! ## C3: invalid-URL blocking in main.js -/

/-- C3 (counterexample): with video info already fetched, clicking download
on a URL whose host is neither youtube.com nor youtu.be is not blocked: the
request to `/download-subtitle` is issued and no notification is shown. -/
theorem downloadClick_invalid_url_not_blocked :
    isValidYouTubeUrl "https://example.com/video" = false ∧
    (downloadClick true "https://example.com/video" "srt" "en").any isNetworkRequest = true ∧
    (downloadClick true "https://example.com/video" "srt" "en").any isAlertEffect = false := by
  decide

/-- C3 (amended): for every input whose trimmed value fails
`isValidYouTubeUrl`, the get-info action is blocked with an error
notification and no request; the download and preview actions are blocked
(with an error notification) only while no video info has been fetched —
once `currentVideoInfo` is set they issue their requests regardless of the
URL. -/
theorem invalid_url_blocks_info_only (raw fmt lang : String)
    (hinvalid : isValidYouTubeUrl (jsTrim raw) = false) :
    ((getInfoClick raw).all (fun e => !isNetworkRequest e) = true ∧
     (getInfoClick raw).any isErrorAlert = true) ∧
    (downloadClick false raw fmt lang =
       [Effect.alert "Vui lòng lấy thông tin video trước" "error"] ∧
     previewClick false raw lang =
       [Effect.alert "Vui lòng lấy thông tin video trước" "error"]) ∧
    (downloadClick true raw fmt lang =
       [Effect.showLoading,
        Effect.request "POST" "/download-subtitle"
          [("url", jsTrim raw), ("format", fmt), ("language", lang)]] ∧
     previewClick true raw lang =
       [Effect.showLoading,
        Effect.request "POST" "/preview-subtitle"
          [("url", jsTrim raw), ("language", lang)]]) := by
  refine ⟨?_, ⟨rfl, rfl⟩, ⟨rfl, rfl⟩⟩
  unfold getInfoClick
  by_cases h : jsTrim raw = ""
  · simp [h, isNetworkRequest, isErrorAlert]
  · simp [h, hinvalid, isNetworkRequest, isErrorAlert]

/-- Witness for `invalid_url_blocks_info_only` at a concrete invalid URL. -/
theorem invalid_url_blocks_info_only_witness :
    isValidYouTubeUrl (jsTrim "https://example.com/video") = false ∧
    (getInfoClick "https://example.com/video").any isErrorAlert = true := by
  refine ⟨by decide, ?_⟩
  exact ((invalid_url_blocks_info_only "https://example.com/video" "srt" "en" (by decide)).1).2

/-! ## C4: loader behaviour on failed loads -/

/-- C4 (counterexample): a failed visitors load (network error) surfaces no
notification at all — the loader only logs to the console. -/
theorem loadVisitors_failure_shows_no_alert :
    ¬ ((loadVisitors (ApiResult.netError "timeout") emptyAdminDom).2.any isAlertEffect = true) := by
  decide

/-- C4 (amended): every loader leaves its rendered container unchanged on
failure, but surfaces no notification: a transport error produces exactly
one console log, and a `success=false` envelope produces no effect at
all. -/
theorem loaders_stale_and_silent_on_failure (dom : AdminDom) (e : String)
    (rs : StatsResponse) (rv : VisitorsResponse) (rb : BannersResponse)
    (rd : DownloadsResponse) (rst : SettingsResponse)
    (hs : rs.success = false) (hv : rv.success = false) (hb : rb.success = false)
    (hd : rd.success = false) (hst : rst.success = false) :
    loadDashboardData (ApiResult.netError e) dom =
      (dom, [Effect.consoleError ("Failed to load dashboard data: " ++ e)]) ∧
    loadVisitors (ApiResult.netError e) dom =
      (dom, [Effect.consoleError ("Failed to load visitors: " ++ e)]) ∧
    loadBanners (ApiResult.netError e) dom =
      (dom, [Effect.consoleError ("Failed to load banners: " ++ e)]) ∧
    loadDownloads (ApiResult.netError e) dom =
      (dom, [Effect.consoleError ("Failed to load downloads: " ++ e)]) ∧
    loadSettings (ApiResult.netError e) dom =
      (dom, [Effect.consoleError ("Failed to load settings: " ++ e)]) ∧
    loadDashboardData (ApiResult.ok rs) dom = (dom, []) ∧
    loadVisitors (ApiResult.ok rv) dom = (dom, []) ∧
    loadBanners (ApiResult.ok rb) dom = (dom, []) ∧
    loadDownloads (ApiResult.ok rd) dom = (dom, []) ∧
    loadSettings (ApiResult.ok rst) dom = (dom, []) := by
  refine ⟨rfl, rfl, rfl, rfl, rfl, ?_, ?_, ?_, ?_, ?_⟩ <;>
    simp [loadDashboardData, loadVisitors, loadBanners, loadDownloads, loadSettings,
      hs, hv, hb, hd, hst]

/-- Witness for `loaders_stale_and_silent_on_failure` at concrete
`success=false` envelopes. -/
theorem loaders_stale_and_silent_on_failure_witness :
    (⟨false, []⟩ : VisitorsResponse).success = false ∧
    loadVisitors (ApiResult.ok ⟨false, []⟩) emptyAdminDom = (emptyAdminDom, []) := by
  refine ⟨rfl, ?_⟩
  exact (loaders_stale_and_silent_on_failure emptyAdminDom "x"
    ⟨false, ⟨⟨0, 0⟩, ⟨0, []⟩, ⟨0⟩⟩⟩ ⟨false, []⟩ ⟨false, []⟩ ⟨false, []⟩ ⟨false, []⟩
    rfl rfl rfl rfl rfl).2.2.2.2.2.2.1

/-! ## C5: CSV export -/

/-- C5 (counterexample): the export utility does not replace embedded
commas in header cells — a table whose header cell is `"a,b"` is serialized
with the comma intact, so the claim's "every embedded comma in a serialized
cell replaced by a semicolon" fails. -/
theorem getTableData_header_comma_not_escaped :
    ¬ ((getTableData { headers := ["a,b"], rows := [] }).head? = some ["a,b"] ∧
       (getTableData { headers := ["a,b"], rows := [] }).length =
         (([] : List TableRow).filter (fun r => r.visible)).length + 1 ∧
       ∀ row ∈ getTableData { headers := ["a,b"], rows := [] },
         ∀ cell ∈ row, ',' ∉ cell.data) := by
  intro h
  exact h.2.2 ["a,b"] (by simp [getTableData]) "a,b" (by simp) (by decide)

/-- C5 (amended): the export utility produces data whose first row equals
the header-cell texts verbatim, whose number of data rows equals the number
of visible body rows, and in which every embedded comma of a *body* cell is
replaced by a semicolon; header cells are serialized unescaped. -/
theorem getTableData_shape_and_body_escape (t : HtmlTable) :
    (getTableData t).head? = some t.headers ∧
    (getTableData t).length = (t.rows.filter (fun r => r.visible)).length + 1 ∧
    (∀ row ∈ (getTableData t).tail, ∀ cell ∈ row, ',' ∉ cell.data) := by
  refine ⟨rfl, by simp [getTableData], ?_⟩
  intro row hrow cell hcell
  simp only [getTableData, List.tail_cons, List.mem_map] at hrow
  rcases hrow with ⟨r, _, hr⟩
  rcases List.mem_map.mp (hr ▸ hcell) with ⟨c, _, hc⟩
  exact hc ▸ comma_not_mem_replaceCommas c

/-- Witness for `getTableData_shape_and_body_escape` at a concrete table
with one visible comma-carrying body cell. -/
theorem getTableData_shape_and_body_escape_witness :
    (getTableData { headers := ["h"], rows := [⟨["x,y"], true⟩] }).head? = some ["h"] ∧
    ',' ∉ ("x;y" : String).data :=
  ⟨(getTableData_shape_and_body_escape { headers := ["h"], rows := [⟨["x,y"], true⟩] }).1,
   (getTableData_shape_and_body_escape { headers := ["h"], rows := [⟨["x,y"], true⟩] }).2.2
     ["x;y"] (by decide) "x;y" (by decide)⟩

/-! ## C6: one-shot session-expiry warning -/

/-- Unfolding lemma for `sessionWarnings` on a cons cell. -/
theorem sessionWarnings_cons (w : Bool) (r : ProbeResult) (rs : List ProbeResult) :
    sessionWarnings w (r :: rs) =
      (sessionStep w r).2 :: sessionWarnings (sessionStep w r).1 rs := rfl

/-- `sessionWarnings` splits across an append, threading the flag. -/
theorem sessionWarnings_append (w : Bool) (xs ys : List ProbeResult) :
    sessionWarnings w (xs ++ ys) =
      sessionWarnings w xs ++ sessionWarnings (flagAfter w xs) ys := by
  induction xs generalizing w with
  | nil => simp [sessionWarnings, flagAfter]
  | cons r rs ih => simp [sessionWarnings, flagAfter, ih]

/-- One warning record per probe. -/
theorem length_sessionWarnings (w : Bool) (xs : List ProbeResult) :
    (sessionWarnings w xs).length = xs.length := by
  induction xs generalizing w with
  | nil => rfl
  | cons r rs ih => simp [sessionWarnings, ih]

/-- A firing that raises the warning leaves the flag set, and can only
happen while the flag is clear. -/
theorem sessionStep_raised (w : Bool) (r : ProbeResult)
    (h : (sessionStep w r).2 = true) :
    (sessionStep w r).1 = true ∧ w = false := by
  cases r with
  | success => simp [sessionStep] at h
  | failure st =>
      cases w with
      | true => simp [sessionStep] at h
      | false =>
          by_cases hst : st = 401
          · simp [sessionStep, hst]
          · simp [sessionStep, hst] at h

/-- While the flag is set, only a successful probe can ever clear it. -/
theorem flagAfter_true_of_no_success (rs : List ProbeResult)
    (h : flagAfter true rs = false) : ProbeResult.success ∈ rs := by
  induction rs with
  | nil => simp [flagAfter] at h
  | cons r rest ih =>
      cases r with
      | success => exact List.mem_cons_self _ _
      | failure st =>
          have hstep : flagAfter true (ProbeResult.failure st :: rest) = flagAfter true rest := by
            simp [flagAfter, sessionStep]
          exact List.mem_cons_of_mem _ (ih (hstep ▸ h))

/-- C6: in any run of the 5-minute session-check timer (started with the
`sessionWarningShown` flag clear), two firings that both raise the
authentication-failure warning always have a successful probe strictly
between them: the warning fires at most once per failure streak. -/
theorem session_warning_once_per_failure_streak
    (pre mid post : List ProbeResult) (r1 r2 : ProbeResult)
    (h1 : (sessionWarnings false (pre ++ r1 :: (mid ++ r2 :: post))).getD
            pre.length false = true)
    (h2 : (sessionWarnings false (pre ++ r1 :: (mid ++ r2 :: post))).getD
            (pre.length + 1 + mid.length) false = true) :
    ProbeResult.success ∈ mid := by
  rw [sessionWarnings_append] at h1 h2
  rw [List.getD_append_right _ _ _ _ (Nat.le_of_eq (length_sessionWarnings false pre))] at h1
  rw [List.getD_append_right _ _ _ _
        (by rw [length_sessionWarnings]; omega)] at h2
  rw [length_sessionWarnings] at h1 h2
  rw [Nat.sub_self] at h1
  have hidx : pre.length + 1 + mid.length - pre.length = mid.length + 1 := by omega
  rw [hidx] at h2
  rw [sessionWarnings_cons] at h1 h2
  rw [List.getD_cons_zero] at h1
  rw [List.getD_cons_succ] at h2
  have hflag1 := (sessionStep_raised _ _ h1).1
  rw [sessionWarnings_append] at h2
  rw [List.getD_append_right _ _ _ _ (Nat.le_of_eq (length_sessionWarnings _ mid))] at h2
  rw [length_sessionWarnings, Nat.sub_self] at h2
  rw [sessionWarnings_cons, List.getD_cons_zero] at h2
  have hflag2 := (sessionStep_raised _ _ h2).2
  rw [hflag1] at hflag2
  exact flagAfter_true_of_no_success mid hflag2

/-- Witness for `session_warning_once_per_failure_streak` on the trace
401-failure, 401-failure (suppressed), success, 500-failure, 401-failure:
warnings fire at positions 0 and 4 and the success sits in between. -/
theorem session_warning_once_per_failure_streak_witness :
    (sessionWarnings false
        [ProbeResult.failure 401, ProbeResult.failure 401, ProbeResult.success,
         ProbeResult.failure 500, ProbeResult.failure 401]).getD 0 false = true ∧
    (sessionWarnings false
        [ProbeResult.failure 401, ProbeResult.failure 401, ProbeResult.success,
         ProbeResult.failure 500, ProbeResult.failure 401]).getD 4 false = true ∧
    ProbeResult.success ∈
      [ProbeResult.failure 401, ProbeResult.success, ProbeResult.failure 500] := by
  refine ⟨by decide, by decide, ?_⟩
  exact session_warning_once_per_failure_streak []
    [ProbeResult.failure 401, ProbeResult.success, ProbeResult.failure 500] []
    (ProbeResult.failure 401) (ProbeResult.failure 401) (by decide) (by decide)

/-! ## C7: banner submission order, payload injection and method -/

/-- The validation handler only ever emits notifications, never a save
request. -/
theorem validate_no_save (title position m : String) (p : BannerPayload) :
    Effect.saveBannerRequest m p ∉ (validateBannerForm title position).2 := by
  unfold validateBannerForm
  split
  · simp
  · split
    · simp
    · simp

/-- C7: on every banner-form submission, any issued create/update request
uses method `POST` exactly when the id field is empty and `PUT` otherwise;
when an image file is attached, the very first effect is the multipart
upload, and a create/update request is only ever issued after the upload
succeeded, with the returned path injected as the payload's
`image_path`. -/
theorem bannerSubmit_upload_first_then_save (f : BannerFormState) (u : UploadOutcome) :
    (∀ m p, Effect.saveBannerRequest m p ∈ bannerFormSubmit f u →
       (m = if f.id = "" then "POST" else "PUT") ∧
       (∀ file, f.imageFile = some file →
          ∃ path, u = UploadOutcome.ok path ∧ p.image_path = some path)) ∧
    (∀ file, f.imageFile = some file →
       (bannerFormSubmit f u).head? = some (Effect.uploadRequest file)) := by
  constructor
  · intro m p hmem
    rcases List.mem_append.mp hmem with hone | hval
    case inr => exact absurd hval (validate_no_save f.title f.position m p)
    cases hf : f.imageFile with
    | none =>
        simp only [bannerSubmitHandlerOne, hf, saveBanner, List.mem_singleton,
          Effect.saveBannerRequest.injEq] at hone
        obtain ⟨hm, hp⟩ := hone
        constructor
        · subst hm
          by_cases hid : f.id = "" <;> simp [hid]
        · intro file hfile
          exact Option.noConfusion hfile
    | some file0 =>
        cases u with
        | ok path =>
            simp only [bannerSubmitHandlerOne, hf, saveBanner, List.mem_cons,
              List.mem_singleton, List.not_mem_nil, or_false] at hone
            rcases hone with hbad | hone
            · exact absurd hbad (by simp)
            rw [Effect.saveBannerRequest.injEq] at hone
            obtain ⟨hm, hp⟩ := hone
            constructor
            · subst hm
              by_cases hid : f.id = "" <;> simp [hid]
            · intro file hfile
              exact ⟨path, rfl, by rw [hp]⟩
        | appError msg =>
            simp only [bannerSubmitHandlerOne, hf, List.mem_cons, List.mem_singleton,
              List.not_mem_nil, or_false] at hone
            rcases hone with hbad | hbad <;> exact absurd hbad (by simp)
        | netError msg =>
            simp only [bannerSubmitHandlerOne, hf, List.mem_cons, List.mem_singleton,
              List.not_mem_nil, or_false] at hone
            rcases hone with hbad | hbad <;> exact absurd hbad (by simp)
  · intro file hf
    simp [bannerFormSubmit, bannerSubmitHandlerOne, hf]

/-- Witness for `bannerSubmit_upload_first_then_save` on a concrete edit
submission with an attached image and a successful upload. -/
theorem bannerSubmit_upload_first_then_save_witness :
    ("PUT" = if ("7" : String) = "" then "POST" else "PUT") ∧
    (bannerFormSubmit ⟨"7", "T", "", "", "top", false, some "pic.png"⟩
        (UploadOutcome.ok "/static/banners/pic.png")).head? =
      some (Effect.uploadRequest "pic.png") :=
  ⟨((bannerSubmit_upload_first_then_save
        ⟨"7", "T", "", "", "top", false, some "pic.png"⟩
        (UploadOutcome.ok "/static/banners/pic.png")).1 "PUT"
      ⟨some "7", "T", "", "", "top", false, some "/static/banners/pic.png"⟩
      (by decide)).1,
   (bannerSubmit_upload_first_then_save
        ⟨"7", "T", "", "", "top", false, some "pic.png"⟩
        (UploadOutcome.ok "/static/banners/pic.png")).2 "pic.png" rfl⟩

/-! ## C8: section switching -/

/-- C8: for every section of the enumerated set, `showSection` leaves
exactly that section's content region active, sets the page title from the
static lookup table, records the current section, and triggers that
section's loader. -/
theorem showSection_exactly_one_active (s : Section) (st : NavState) :
    ((showSection (sectionId s) st).1.sectionActive s = true) ∧
    (∀ s2 : Section, s2 ≠ s → (showSection (sectionId s) st).1.sectionActive s2 = false) ∧
    ((showSection (sectionId s) st).1.pageTitle = sectionTitle s) ∧
    ((showSection (sectionId s) st).2 = some (sectionLoader s)) ∧
    ((showSection (sectionId s) st).1.currentSection = sectionId s) := by
  refine ⟨by simp [showSection], ?_, ?_, ?_, rfl⟩
  · intro s2 h2
    simp only [showSection]
    cases s <;> cases s2 <;> first | exact absurd rfl h2 | decide
  · simp only [showSection]
    cases s <;> decide
  · simp only [showSection]
    cases s <;> decide

/-- Witness for `showSection_exactly_one_active`: switching to `banners`
deactivates the `dashboard` region. -/
theorem showSection_exactly_one_active_witness :
    (Section.dashboard ≠ Section.banners) ∧
    (showSection (sectionId Section.banners)
        ⟨"dashboard", fun _ => false, "Dashboard"⟩).1.sectionActive Section.dashboard = false :=
  ⟨by decide,
   (showSection_exactly_one_active Section.banners
      ⟨"dashboard", fun _ => false, "Dashboard"⟩).2.1 Section.dashboard (by decide)⟩

/-! ## C9: the alert presenter -/

/-- After removing existing alerts, no alert-classed element remains. -/
theorem removeExistingAlerts_no_alert (doc : List PageElem) :
    (removeExistingAlerts doc).filter (fun e => hasClass e "alert") = [] := by
  unfold removeExistingAlerts
  induction doc with
  | nil => rfl
  | cons e es ih =>
      by_cases h : hasClass e "alert" = true
      · simp [List.filter_cons, h, ih]
      · simp only [Bool.not_eq_true] at h
        simp [List.filter_cons, h, ih]

/-- C9: both alert presenters (admin.js and main.js) leave exactly one
alert element in the document after every call — any existing alert is
removed before the new one is inserted — and schedule the new alert's
dismissal exactly 5000 ms out. -/
theorem showAlert_single_alert_and_5s (doc : List PageElem) (message ty : String) :
    ((showAlertAdmin doc message ty).1.filter (fun e => hasClass e "alert")).length = 1 ∧
    (showAlertAdmin doc message ty).2 = 5000 ∧
    ((showAlertMain doc message ty).1.filter (fun e => hasClass e "alert")).length = 1 ∧
    (showAlertMain doc message ty).2 = 5000 := by
  refine ⟨?_, rfl, ?_, rfl⟩
  · show ((removeExistingAlerts doc ++
        ([{ classes := ["alert", alertClassAdmin ty, "fade-in"], text := message }] :
          List PageElem)).filter
          (fun e => hasClass e "alert")).length = 1
    rw [List.filter_append, removeExistingAlerts_no_alert, List.nil_append, List.filter_cons]
    have hc : hasClass { classes := ["alert", alertClassAdmin ty, "fade-in"], text := message } "alert" = true := by
      simp [hasClass]
    rw [hc]
    simp
  · show ((({ classes := ["alert", alertClassMain ty, "fade-in"], text := message } :
        PageElem) :: removeExistingAlerts doc).filter (fun e => hasClass e "alert")).length = 1
    rw [List.filter_cons]
    have hc : hasClass { classes := ["alert", alertClassMain ty, "fade-in"], text := message } "alert" = true := by
      simp [hasClass]
    rw [hc]
    simp [removeExistingAlerts_no_alert]

/-! ## C10: settings auto-save debounce -/

/-- Assigning a fresh key appends it. -/
theorem setKey_of_not_mem (acc : List (String × String)) (k v : String)
    (h : k ∉ acc.map Prod.fst) : setKey acc k v = acc ++ [(k, v)] := by
  induction acc with
  | nil => rfl
  | cons kv rest ih =>
      obtain ⟨k0, v0⟩ := kv
      simp only [List.map_cons, List.mem_cons] at h
      push_neg at h
      obtain ⟨h1, h2⟩ := h
      unfold setKey
      rw [if_neg (fun hh => h1 hh.symm)]
      rw [ih h2]
      simp

/-- Folding assignments of pairwise-fresh keys over an accumulator that
contains none of them just appends the pairs in order. -/
theorem foldl_setKey_fresh (l : List (String × String)) :
    ∀ acc : List (String × String), (l.map Prod.fst).Nodup →
      (∀ k, k ∈ l.map Prod.fst → k ∉ acc.map Prod.fst) →
      l.foldl (fun a kv => setKey a kv.1 kv.2) acc = acc ++ l := by
  induction l with
  | nil => intro acc _ _; simp
  | cons kv rest ih =>
      intro acc hnd hdisj
      obtain ⟨k, v⟩ := kv
      simp only [List.map_cons, List.nodup_cons] at hnd
      simp only [List.foldl_cons]
      rw [setKey_of_not_mem acc k v (hdisj k (by simp))]
      rw [ih (acc ++ [(k, v)]) hnd.2 ?_]
      · simp
      · intro k2 hk2
        simp only [List.map_append, List.map_cons, List.map_nil, List.mem_append,
          List.mem_singleton]
        rintro (hk2acc | hk2k)
        · exact hdisj k2 (by simp [hk2]) hk2acc
        · exact hnd.1 (hk2k ▸ hk2)

/-- When the form's field names are pairwise distinct, the collected
settings object is exactly the (name, value) list of the fields. -/
theorem settingsObject_eq_self (fields : List (String × String))
    (h : (fields.map Prod.fst).Nodup) : settingsObject fields = fields := by
  unfold settingsObject
  have := foldl_setKey_fresh fields [] h (by simp)
  simpa using this

/-- When every input arrives within 2000 ms of the previous one, all the
pending saves but the last are cancelled: exactly one save fires, 2000 ms
after the final input, on the final form snapshot. -/
theorem debounce_coalesces (es : List InputEvent) (e : InputEvent)
    (hlast : es.getLast? = some e)
    (hgap : List.Chain' (fun a b => b.time < a.time + autoSaveDelayMs) es) :
    debounceRun es = [(e.time + autoSaveDelayMs, e.fields)] := by
  induction es with
  | nil => simp at hlast
  | cons a rest ih =>
      cases rest with
      | nil =>
          simp only [List.getLast?_singleton, Option.some.injEq] at hlast
          subst hlast
          rfl
      | cons b rest2 =>
          have hab : b.time < a.time + autoSaveDelayMs := (List.chain'_cons.mp hgap).1
          have : debounceRun (a :: b :: rest2) = debounceRun (b :: rest2) := by
            show (if a.time + autoSaveDelayMs ≤ b.time then
                    (a.time + autoSaveDelayMs, a.fields) :: debounceRun (b :: rest2)
                  else debounceRun (b :: rest2)) = debounceRun (b :: rest2)
            rw [if_neg (Nat.not_le.mpr hab)]
          rw [this]
          rw [List.getLast?_cons_cons] at hlast
          exact ih hlast (List.chain'_cons.mp hgap).2

/-- C10: every burst of settings-form inputs whose gaps are all under the
2-second debounce window is coalesced into exactly one auto-save, fired
2000 ms after the last input; the fired callback shows the info
notification and then issues one `POST /admin/api/settings` carrying the
current values of all settings fields. -/
theorem settings_autosave_debounce (es : List InputEvent) (e : InputEvent)
    (hlast : es.getLast? = some e)
    (hgap : List.Chain' (fun a b => b.time < a.time + autoSaveDelayMs) es)
    (hkeys : (e.fields.map Prod.fst).Nodup) :
    debounceRun es = [(e.time + autoSaveDelayMs, e.fields)] ∧
    autoSaveFire e.fields =
      [Effect.alert "Tự động lưu cài đặt..." "info", Effect.settingsRequest e.fields] := by
  refine ⟨debounce_coalesces es e hlast hgap, ?_⟩
  simp [autoSaveFire, saveSettingsEffects, settingsObject_eq_self e.fields hkeys]

/-- Witness for `settings_autosave_debounce` on two inputs 1000 ms apart. -/
theorem settings_autosave_debounce_witness :
    ([⟨0, [("site_name", "X")]⟩, ⟨1000, [("site_name", "Y")]⟩] : List InputEvent).getLast? =
      some ⟨1000, [("site_name", "Y")]⟩ ∧
    debounceRun [⟨0, [("site_name", "X")]⟩, ⟨1000, [("site_name", "Y")]⟩] =
      [(3000, [("site_name", "Y")])] := by
  refine ⟨by decide, ?_⟩
  exact (settings_autosave_debounce
      [⟨0, [("site_name", "X")]⟩, ⟨1000, [("site_name", "Y")]⟩]
      ⟨1000, [("site_name", "Y")]⟩ (by decide)
      (by norm_num [List.chain'_cons, List.chain'_singleton, autoSaveDelayMs]) (by decide)).1
